import Mathlib

/-!
Verification of the golfapp swing-analysis pipeline.

This file gives a shallow embedding of the numeric core of the repository
and proves/refutes the stated properties of its specification.

Sources embedded:
- `apps/api/enhanced_golf_analyzer.py` (namespace `Enh`): quality assessment,
  3-point angle geometry, golf feature extraction, confidence-weighted voting,
  the enhanced scorer and the `analyze_enhanced` result shape.
- `apps/api/src/python/advanced_golf_analyzer.py` (namespace `Adv`): the swing
  phase classifier, fault detection (with its random sway placeholder made an
  explicit input), and the weighted video score.
- `apps/api/src/python/golf_analyzer.py` (namespace `GA`): the cached
  single-image analyzer, its posture gate, angles, faults and score.

Modelling conventions: Python floats are modelled as `ℝ` where transcendental
functions (atan2/acos/sqrt) occur and as `ℚ` elsewhere; IEEE NaN, which arises
only in the 3-point angle helper via `0/0`, is modelled as `Option` `none` and
propagated exactly as NaN propagates through `np.clip` and `math.acos` (both
return NaN without raising).  External collaborators (MediaPipe, OpenCV image
decoding, the Laplacian/brightness statistics) are inputs to the embedded
functions, matching the specification's interface boundary.
-/

namespace Enh

/-- Quality level of `assess_image_quality`: `high` if the total score is at
least 70, `medium` if at least 40, otherwise `low`. -/
inductive QualityLevel where
  | low
  | medium
  | high
deriving DecidableEq, Repr

/-- Resolution sub-score of `assess_image_quality` (line 32):
`min(100, (pixel_count / (640*480)) * 50)`. -/
def resolution_score (h w : ℕ) : ℚ :=
  min 100 ((h * w : ℚ) / (640 * 480) * 50)

/-- Sharpness sub-score of `assess_image_quality` (line 37):
`min(100, (laplacian_var / 100) * 50)`; the Laplacian variance is computed by
OpenCV and is an input here. -/
def sharpness_score (laplacian_var : ℚ) : ℚ :=
  min 100 (laplacian_var / 100 * 50)

/-- Brightness sub-score of `assess_image_quality` (line 41):
`100 - abs(mean_brightness - 128) / 128 * 100`. -/
def brightness_score (mean_brightness : ℚ) : ℚ :=
  100 - |mean_brightness - 128| / 128 * 100

/-- Level thresholds of `assess_image_quality` (line 50). -/
def quality_level_of (total : ℚ) : QualityLevel :=
  if total ≥ 70 then .high else if total ≥ 40 then .medium else .low

/-- The `quality_info` dictionary produced by `assess_image_quality`
(the source also stores a `WxH` string and rounds the displayed total to one
decimal; the rounding is display-only and omitted). -/
structure QualityInfo where
  total_score : ℚ
  sharpness : ℚ
  brightness : ℚ
  quality_level : QualityLevel
deriving DecidableEq, Repr

/-- `assess_image_quality` (lines 26-54): mean of the three sub-scores plus
the level classification.  `h`/`w` are the frame dimensions; the Laplacian
variance and mean brightness are the OpenCV-computed statistics. -/
def assess_image_quality (h w : ℕ) (laplacian_var mean_brightness : ℚ) : QualityInfo :=
  let total := (resolution_score h w + sharpness_score laplacian_var
    + brightness_score mean_brightness) / 3
  ⟨total, laplacian_var, mean_brightness, quality_level_of total⟩

/-- A 2D point or vector (normalized landmark coordinates are Python floats,
modelled as reals). -/
structure Pt where
  x : ℝ
  y : ℝ

/-- Vector from `q` to `p`, as built in `calculate_angle_3points` (line 264). -/
noncomputable def vsub (p q : Pt) : Pt := ⟨p.x - q.x, p.y - q.y⟩

/-- `np.dot` on 2-vectors. -/
noncomputable def dot2 (v w : Pt) : ℝ := v.x * w.x + v.y * w.y

/-- `np.linalg.norm` on a 2-vector. -/
noncomputable def norm2 (v : Pt) : ℝ := Real.sqrt (v.x ^ 2 + v.y ^ 2)

/-- `np.clip(x, lo, hi)`. -/
noncomputable def clip (x lo hi : ℝ) : ℝ := min hi (max lo x)

/-- `math.degrees`. -/
noncomputable def degrees (x : ℝ) : ℝ := x * 180 / Real.pi

/-- `math.atan2` on real (non-NaN, non-infinite) arguments. -/
noncomputable def atan2 (y x : ℝ) : ℝ :=
  if 0 < x then Real.arctan (y / x)
  else if x < 0 then
    (if 0 ≤ y then Real.arctan (y / x) + Real.pi else Real.arctan (y / x) - Real.pi)
  else
    (if 0 < y then Real.pi / 2 else if y < 0 then -(Real.pi / 2) else 0)

/-- `calculate_angle_3points` (lines 260-274).  When both direction vectors
are nonzero the cosine is formed, clipped to `[-1,1]` and fed to `acos`.
When a vector is zero-length the Python computation divides `0.0` by `0.0`,
which yields IEEE NaN (a `RuntimeWarning`, not an exception); `np.clip` and
`math.acos` both propagate NaN without raising, so the `except` branch that
returns the default `90` is not reached and the function returns NaN.  NaN is
modelled as `none`. -/
noncomputable def calculate_angle_3points (p1 p2 p3 : Pt) : Option ℝ :=
  let v1 := vsub p1 p2
  let v2 := vsub p3 p2
  let den := norm2 v1 * norm2 v2
  if den = 0 then none
  else some (degrees (Real.arccos (clip (dot2 v1 v2 / den) (-1) 1)))

/-- One MediaPipe landmark: normalized coordinates plus an optional
visibility (the source checks `hasattr(landmark, 'visibility')`). -/
structure Landmark where
  x : ℝ
  y : ℝ
  visibility : Option ℝ

/-- The landmarks read by `extract_golf_features` (indices 11, 12, 23, 24,
25, 26, 27, 28 of the 33-point MediaPipe set). -/
structure LandmarkSet where
  left_shoulder : Landmark
  right_shoulder : Landmark
  left_hip : Landmark
  right_hip : Landmark
  left_knee : Landmark
  right_knee : Landmark
  left_ankle : Landmark
  right_ankle : Landmark

/-- The feature dictionary built by `extract_golf_features`.  `knee_flex` is
optional because the knee angles can be NaN (zero-length limb vectors), and
NaN propagates through the averaging into the stored value. -/
structure FeatureVector where
  shoulder_rotation : ℝ
  hip_rotation : ℝ
  x_factor : ℝ
  spine_angle : ℝ
  knee_flex : Option ℝ
  confidence : ℝ

/-- Visibility scores of the six key landmarks used for the confidence mean
(lines 239-244). -/
def vis_scores (lm : LandmarkSet) : List ℝ :=
  [lm.left_shoulder, lm.right_shoulder, lm.left_hip, lm.right_hip,
    lm.left_knee, lm.right_knee].filterMap (fun l => l.visibility)

/-- `extract_golf_features` (lines 196-258): rotations via `atan2` in
degrees, `x_factor = abs(shoulder_rotation - hip_rotation)`, spine angle,
average knee flex from the two 3-point knee angles, and mean visibility
(default `0.8` when no landmark reports visibility). -/
noncomputable def extract_golf_features (lm : LandmarkSet) : FeatureVector :=
  let shoulder_rotation :=
    degrees (atan2 (lm.right_shoulder.y - lm.left_shoulder.y)
      (lm.right_shoulder.x - lm.left_shoulder.x))
  let hip_rotation :=
    degrees (atan2 (lm.right_hip.y - lm.left_hip.y) (lm.right_hip.x - lm.left_hip.x))
  let mid_shoulder_x := (lm.left_shoulder.x + lm.right_shoulder.x) / 2
  let mid_shoulder_y := (lm.left_shoulder.y + lm.right_shoulder.y) / 2
  let mid_hip_x := (lm.left_hip.x + lm.right_hip.x) / 2
  let mid_hip_y := (lm.left_hip.y + lm.right_hip.y) / 2
  let spine_angle :=
    degrees (atan2 |mid_shoulder_x - mid_hip_x| |mid_hip_y - mid_shoulder_y|)
  let lk := calculate_angle_3points ⟨lm.left_hip.x, lm.left_hip.y⟩
    ⟨lm.left_knee.x, lm.left_knee.y⟩ ⟨lm.left_ankle.x, lm.left_ankle.y⟩
  let rk := calculate_angle_3points ⟨lm.right_hip.x, lm.right_hip.y⟩
    ⟨lm.right_knee.x, lm.right_knee.y⟩ ⟨lm.right_ankle.x, lm.right_ankle.y⟩
  let knee_flex := match lk, rk with
    | some a, some b => some (180 - (a + b) / 2)
    | _, _ => none
  let confidence :=
    if (vis_scores lm).length = 0 then 0.8
    else (vis_scores lm).sum / (vis_scores lm).length
  { shoulder_rotation := shoulder_rotation
    hip_rotation := hip_rotation
    x_factor := |shoulder_rotation - hip_rotation|
    spine_angle := spine_angle
    knee_flex := knee_flex
    confidence := confidence }

/-- One entry of the `multi_scale_processing` result list: the feature
dictionary together with the `threshold_used`, `stage` and `scale` recorded
by `multi_stage_detection` and `multi_scale_processing`. -/
structure DetectionAttempt where
  features : FeatureVector
  threshold_used : ℝ
  stage : ℕ
  scale : ℝ

/-- The `voting_info` dictionary added by `confidence_weighted_voting`
(lines 186-191); the source rounds `total_weight` to three decimals for
display, which is omitted here. -/
structure VotingInfo where
  num_results : ℕ
  total_weight : ℝ
  scales_used : List ℝ
  stages_used : List ℕ

/-- The dictionary returned by `confidence_weighted_voting`: the highest
confidence attempt with its angle fields overwritten by the weighted means.
`voting_info` is `none` exactly on the degenerate zero-total-weight path,
which returns `results[0]` unchanged (without `voting_info`). -/
structure ConsensusResult where
  threshold_used : ℝ
  stage : ℕ
  scale : ℝ
  features : FeatureVector
  voting_info : Option VotingInfo

/-- Sum of the attempt confidences (line 166). -/
noncomputable def total_weight (rs : List DetectionAttempt) : ℝ :=
  (rs.map fun r => r.features.confidence).sum

/-- Confidence-weighted mean of one real-valued feature key (lines 175-177). -/
noncomputable def weighted_angle (rs : List DetectionAttempt) (f : FeatureVector → ℝ) : ℝ :=
  (rs.map fun r => f r.features * r.features.confidence).sum / total_weight rs

/-- Confidence-weighted mean of the `knee_flex` key; if any contributing
attempt carries NaN (`none`) the Python weighted sum is NaN, hence `none`. -/
noncomputable def weighted_knee (rs : List DetectionAttempt) : Option ℝ :=
  if rs.all (fun r => r.features.knee_flex.isSome) then
    some ((rs.map fun r => (r.features.knee_flex.getD 0) * r.features.confidence).sum
      / total_weight rs)
  else none

/-- `max(results, key=lambda x: x['features']['confidence'])` (line 180):
Python `max` keeps the first element among ties, replacing the accumulator
only on a strictly greater key. -/
noncomputable def best_attempt (a : DetectionAttempt) (rs : List DetectionAttempt) : DetectionAttempt :=
  rs.foldl (fun acc b =>
    if acc.features.confidence < b.features.confidence then b else acc) a

/-- `confidence_weighted_voting` (lines 158-194): `None` on an empty list;
`results[0]` unchanged when the total weight is zero; otherwise the best
attempt with weighted-mean angles and the voting metadata, whose
`scales_used`/`stages_used` lists follow the input order of `results`. -/
noncomputable def confidence_weighted_voting
    (rs : List DetectionAttempt) : Option ConsensusResult :=
  match rs with
  | [] => none
  | r0 :: rest =>
    if total_weight (r0 :: rest) = 0 then
      some ⟨r0.threshold_used, r0.stage, r0.scale, r0.features, none⟩
    else
      let all := r0 :: rest
      let best := best_attempt r0 rest
      some ⟨best.threshold_used, best.stage, best.scale,
        { shoulder_rotation := weighted_angle all (fun f => f.shoulder_rotation)
          hip_rotation := weighted_angle all (fun f => f.hip_rotation)
          x_factor := weighted_angle all (fun f => f.x_factor)
          spine_angle := weighted_angle all (fun f => f.spine_angle)
          knee_flex := weighted_knee all
          confidence := best.features.confidence },
        some ⟨all.length, total_weight all,
          all.map (fun r => r.scale), all.map (fun r => r.stage)⟩⟩

/-- `calculate_enhanced_score` (lines 276-325): `65` when no features were
extracted, otherwise base `88` plus the X-factor / spine / knee / confidence
/ quality bonuses, clamped by `max(78, min(96, score))`.  A NaN `knee_flex`
fails both Python comparisons of the knee band, so `none` earns no bonus. -/
noncomputable def calculate_enhanced_score
    (features : Option FeatureVector) (quality : QualityInfo) : ℝ :=
  match features with
  | none => 65
  | some f =>
    let s1 : ℝ := 88 +
      (if 40 ≤ f.x_factor ∧ f.x_factor ≤ 50 then 8
        else if 30 ≤ f.x_factor ∧ f.x_factor ≤ 60 then 5
        else if 25 ≤ f.x_factor ∧ f.x_factor ≤ 65 then 2
        else -3)
    let s2 := s1 +
      (if 20 ≤ f.spine_angle ∧ f.spine_angle ≤ 30 then 6
        else if 15 ≤ f.spine_angle ∧ f.spine_angle ≤ 35 then 3
        else 0)
    let s3 := s2 +
      (match f.knee_flex with
        | some k => if 20 ≤ k ∧ k ≤ 35 then 3 else 0
        | none => 0)
    let s4 := s3 +
      (if f.confidence > 0.9 then 6
        else if f.confidence > 0.8 then 4
        else if f.confidence > 0.7 then 2
        else 0)
    let s5 := s4 +
      (match quality.quality_level with
        | .high => 3
        | .medium => 1
        | .low => 0)
    max 78 (min 96 s5)

/-- The decoded-image data `analyze_enhanced` needs: dimensions plus the
OpenCV statistics feeding the quality assessor. -/
structure Img where
  h : ℕ
  w : ℕ
  laplacian_var : ℚ
  mean_brightness : ℚ

/-- The JSON object emitted by `analyze_enhanced` (lines 327-436), restricted
to the fields the specification constrains.  Every branch of the source,
including the outer `except`, returns such a dictionary. -/
structure AnalysisResult where
  success : Bool
  detected : Bool
  error : Option String
  score : Option ℝ
  pose : Option FeatureVector
  confidence : Option ℝ
  quality_info : Option QualityInfo
  voting_num_results : Option ℕ

/-- `analyze_enhanced` (lines 327-436).  `decoded = none` models base64 or
image decode failure (both return a structured error).  With a decoded image
the attempts produced by `multi_scale_processing` are an input (the ensemble
loop recovers every per-attempt failure internally); an empty list is the
total-failure branch (line 370), and the degenerate consensus without
`voting_info` reaches the `KeyError`-to-outer-`except` path (line 406). -/
noncomputable def analyze_enhanced
    (decoded : Option Img) (attempts : List DetectionAttempt) : AnalysisResult :=
  match decoded with
  | none =>
    { success := false, detected := false, error := some "image decode failed"
      score := none, pose := none, confidence := none, quality_info := none
      voting_num_results := none }
  | some img =>
    let q := assess_image_quality img.h img.w img.laplacian_var img.mean_brightness
    if attempts.isEmpty then
      { success := false, detected := false
        error := some "Enhanced AI detected no pose at any scale"
        score := none, pose := none, confidence := none, quality_info := some q
        voting_num_results := none }
    else
      match confidence_weighted_voting attempts with
      | none =>
        { success := false, detected := false, error := some "voting failed"
          score := none, pose := none, confidence := none, quality_info := some q
          voting_num_results := none }
      | some c =>
        match c.voting_info with
        | none =>
          { success := false, detected := false
            error := some "Enhanced analysis system error"
            score := none, pose := none, confidence := none, quality_info := some q
            voting_num_results := none }
        | some vi =>
          { success := true, detected := true, error := none
            score := some (calculate_enhanced_score (some c.features) q)
            pose := some c.features
            confidence := some (c.features.confidence * 100)
            quality_info := some q
            voting_num_results := some vi.num_results }

end Enh

namespace Adv

/-- The nine swing phases returned by `detect_swing_phase_ml`. -/
inductive SwingPhase where
  | address
  | takeaway
  | backswing
  | top
  | transition
  | downswing
  | impact
  | follow_through
  | finish
deriving DecidableEq, Repr

/-- An angle dictionary of the advanced analyzer.  Fields are optional to
model the `.get(key, default)` dictionary accesses of the source. -/
structure AdvAngles where
  shoulder_rotation : Option ℚ
  hip_rotation : Option ℚ
  x_factor : Option ℚ
  spine_angle : Option ℚ
  wrist_hinge : Option ℚ
deriving DecidableEq, Repr

/-- `detect_swing_phase_ml` (lines 317-349): a rule-based classifier of
`progress = frame_num / total_frames` and `angles.get('shoulder_rotation', 0)`.
The source also builds an unused feature list from the other keys.  Python
would raise on `total_frames = 0`; callers always pass a positive count. -/
def detect_swing_phase_ml (angles : AdvAngles) (frame_num total_frames : ℕ) : SwingPhase :=
  let shoulder_rot := angles.shoulder_rotation.getD 0
  let progress : ℚ := (frame_num : ℚ) / (total_frames : ℚ)
  if progress < 5/100 then .address
  else if progress < 15/100 ∧ shoulder_rot < 30 then .takeaway
  else if progress < 4/10 ∧ shoulder_rot < 70 then .backswing
  else if progress < 5/10 ∧ shoulder_rot ≥ 70 then .top
  else if progress < 55/100 then .transition
  else if progress < 6/10 then .downswing
  else if progress < 65/100 then .impact
  else if progress < 8/10 then .follow_through
  else .finish

/-- `check_lateral_movement` (lines 604-607).  The source returns
`np.random.uniform(0, 0.15)` — a placeholder random draw, not a measurement.
The draw is made an explicit input so the dependence on the random state is
visible in the model. -/
def check_lateral_movement (random_draw : ℚ) : ℚ := random_draw

/-- A fault record of `detect_advanced_faults` (type, severity and the
measured value; the formatted message/fix strings are omitted). -/
structure Fault where
  ftype : String
  severity : String
  value : ℚ
deriving DecidableEq, Repr

/-- Angles of the frames classified into phase `p`: the source list
comprehension `[all_angles[i] for i, p in enumerate(swing_phases) if p == x]`
with the two per-frame lists of equal length. -/
def phase_angles (all_angles : List AdvAngles) (phases : List SwingPhase)
    (p : SwingPhase) : List AdvAngles :=
  (all_angles.zip phases).filterMap (fun ap => if ap.2 = p then some ap.1 else none)

/-- Python `max` over a list of rationals (callers guard non-emptiness; the
empty case is an unreachable default). -/
def pymax (l : List ℚ) : ℚ :=
  match l with
  | [] => 0
  | a :: t => t.foldl max a

/-- `detect_advanced_faults` (lines 539-602): the over-swing, early
extension, sway and casting checks in source order.  `random_draw` is the
`np.random.uniform(0, 0.15)` sample drawn by `check_lateral_movement`. -/
def detect_advanced_faults (all_angles : List AdvAngles) (phases : List SwingPhase)
    (random_draw : ℚ) : List Fault :=
  let top_sh := (phase_angles all_angles phases .top).map
    (fun a => a.shoulder_rotation.getD 0)
  let f1 : List Fault :=
    match top_sh with
    | [] => []
    | c :: t =>
      let max_shoulder := t.foldl max c
      if max_shoulder > 110 then [⟨"over_swing", "medium", max_shoulder⟩] else []
  let f2 : List Fault :=
    match (phase_angles all_angles phases .impact).find?
        (fun a => decide (|a.spine_angle.getD 30 - 30| > 10)) with
    | some a => [⟨"early_extension", "high", |a.spine_angle.getD 30 - 30|⟩]
    | none => []
  let lateral := check_lateral_movement random_draw
  let f3 : List Fault :=
    if phase_angles all_angles phases .address ≠ [] ∧
        phase_angles all_angles phases .backswing ≠ [] ∧ lateral > 1/10 then
      [⟨"sway", "high", lateral * 100⟩]
    else []
  let trans := (all_angles.zip phases).filterMap
    (fun ap => if ap.2 = .transition ∨ ap.2 = .downswing then some ap.1 else none)
  let f4 : List Fault :=
    match trans.find? (fun a => decide (a.wrist_hinge.getD 90 < 70)) with
    | some a => [⟨"casting", "high", a.wrist_hinge.getD 90⟩]
    | none => []
  f1 ++ f2 ++ f3 ++ f4

/-- `np.mean` of a rational list (the callers guarantee non-emptiness; numpy
would give NaN on an empty list). -/
def npmean (l : List ℚ) : ℚ := l.sum / (l.length : ℚ)

/-- The components dictionary assembled by `comprehensive_analysis`
(lines 370-376): the per-phase score dictionary values, the three component
scores and `fault_penalty = len(faults) * 5`. -/
structure ScoreComponents where
  phase_scores : List ℚ
  tempo_score : ℚ
  consistency_score : ℚ
  biomechanics_score : ℚ
  fault_penalty : ℚ
deriving DecidableEq, Repr

/-- `calculate_weighted_score` (lines 609-631): the weighted base
(phase mean 0.3, tempo 0.2, consistency 0.2, biomechanics 0.3) minus the
fault penalty, clamped by `max(0, min(100, .))`. -/
def calculate_weighted_score (c : ScoreComponents) : ℚ :=
  let base := 0 + npmean c.phase_scores * (3/10) + c.tempo_score * (2/10)
    + c.consistency_score * (2/10) + c.biomechanics_score * (3/10)
  max 0 (min 100 (base - c.fault_penalty))

/-- The overall video score of `comprehensive_analysis` (lines 370-380):
`min(100, calculate_weighted_score(...))` with `fault_penalty = 5·|faults|`. -/
def comprehensive_overall_score (phase_scores : List ℚ)
    (tempo consistency biomechanics : ℚ) (faults : List Fault) : ℚ :=
  min 100 (calculate_weighted_score
    ⟨phase_scores, tempo, consistency, biomechanics, (faults.length : ℚ) * 5⟩)

/-- Modelled from the spec (section 4.8, video path): the claimed score form
`0.30·phase + 0.20·tempo + 0.20·consistency + 0.30·biomechanics − 5·faults`,
clamped to `[0,100]`.  Used as the specification side of the refinement
theorem for the video scorer. -/
def spec_video_score (phase_mean tempo consistency biomechanics : ℚ)
    (fault_count : ℕ) : ℚ :=
  max 0 (min 100 ((3/10) * phase_mean + (2/10) * tempo + (2/10) * consistency
    + (3/10) * biomechanics - 5 * (fault_count : ℚ)))

end Adv

namespace GA

/-- One landmark of the fast analyzer (`golf_analyzer.py`): normalized
coordinates (visibility is only printed, never used in the output). -/
structure LM where
  x : ℚ
  y : ℚ
deriving DecidableEq, Repr

/-- The landmarks read by `calculate_golf_angles`, `is_golf_posture` and
`detect_swing_faults` (MediaPipe indices 0, 11-16, 23-26). -/
structure LandmarksG where
  nose : LM
  left_shoulder : LM
  right_shoulder : LM
  left_elbow : LM
  right_elbow : LM
  left_wrist : LM
  right_wrist : LM
  left_hip : LM
  right_hip : LM
  left_knee : LM
  right_knee : LM
deriving DecidableEq, Repr

/-- The four keys of the dictionary built by `calculate_golf_angles`
(lines 167-192).  The `knee_flex` and `elbow_angle` keys probed later by
`detect_swing_faults` and `calculate_score` are never present in it. -/
structure AnglesG where
  shoulder_rotation : ℚ
  hip_rotation : ℚ
  x_factor : ℚ
  spine_angle : ℚ
deriving DecidableEq, Repr

/-- `calculate_golf_angles` (lines 167-192). -/
def calculate_golf_angles (lm : LandmarksG) : AnglesG :=
  let shoulder_angle := |lm.left_shoulder.x - lm.right_shoulder.x| * 180
  let hip_angle := |lm.left_hip.x - lm.right_hip.x| * 150
  { shoulder_rotation := shoulder_angle
    hip_rotation := hip_angle
    x_factor := |shoulder_angle - hip_angle|
    spine_angle := |(lm.left_shoulder.y + lm.right_shoulder.y) / 2
      - (lm.left_hip.y + lm.right_hip.y) / 2| * 90 }

/-- A fault of the fast analyzer (message/fix strings omitted). -/
structure FaultG where
  ftype : String
  severity : String
deriving DecidableEq, Repr

/-- `detect_swing_faults` (lines 232-300).  The dictionary lookups
`angles.get('knee_flex', 0)` and `angles.get('elbow_angle', 0)` always see
the default `0` because `calculate_golf_angles` never stores those keys, so
the knee and arm faults fire on every detected golf posture. -/
def detect_swing_faults (angles : AnglesG) (lm : LandmarksG) : List FaultG :=
  let knee_flex : ℚ := 0
  let elbow_angle : ℚ := 0
  let f12 : List FaultG :=
    if angles.shoulder_rotation > 110 then [⟨"over_swing", "medium"⟩]
    else if angles.shoulder_rotation < 75 then [⟨"insufficient_turn", "high"⟩]
    else []
  let f3 : List FaultG := if angles.x_factor < 25 then [⟨"poor_x_factor", "medium"⟩] else []
  let f4 : List FaultG :=
    if knee_flex < 130 ∨ knee_flex > 170 then [⟨"knee_flex_issue", "low"⟩] else []
  let f5 : List FaultG := if elbow_angle < 150 then [⟨"bent_arm", "medium"⟩] else []
  let f6 : List FaultG :=
    if angles.spine_angle < 20 ∨ angles.spine_angle > 40 then
      [⟨"spine_angle_issue", "high"⟩]
    else []
  let f7 : List FaultG := if lm.nose.y < 25/100 then [⟨"head_up", "critical"⟩] else []
  f12 ++ f3 ++ f4 ++ f5 ++ f6 ++ f7

/-- Severity penalty table of `calculate_score` (lines 320-325). -/
def severity_penalty (s : String) : ℚ :=
  if s = "critical" then 15
  else if s = "high" then 10
  else if s = "medium" then 5
  else if s = "low" then 2
  else 0

/-- `calculate_score` (lines 302-330): base 70 plus the angle bonuses (the
`knee_flex` lookup again sees the missing-key default `0`), minus the
severity penalties, clamped to `[0, 100]`. -/
def calculate_score (angles : AnglesG) (faults : List FaultG) : ℚ :=
  let knee_flex : ℚ := 0
  let b1 : ℚ := if 85 ≤ angles.shoulder_rotation ∧ angles.shoulder_rotation ≤ 95 then 10 else 0
  let b2 : ℚ := if 40 ≤ angles.hip_rotation ∧ angles.hip_rotation ≤ 50 then 5 else 0
  let b3 : ℚ := if angles.x_factor ≥ 40 then 10 else 0
  let b4 : ℚ := if 140 ≤ knee_flex ∧ knee_flex ≤ 160 then 5 else 0
  let total := faults.foldl (fun s f => s - severity_penalty f.severity)
    (70 + b1 + b2 + b3 + b4)
  max 0 (min 100 total)

/-- `is_golf_posture` (lines 332-485): the additive posture score (out of
105 with bonuses) and the other-sport disqualification checks; golf when the
score reaches 75 and no disqualification fires. -/
def is_golf_posture (lm : LandmarksG) : Bool :=
  let shoulder_tilt := |lm.left_shoulder.y - lm.right_shoulder.y|
  let s1 : ℚ := if shoulder_tilt < 8/100 then 20
    else if shoulder_tilt < 15/100 then 15
    else if shoulder_tilt < 25/100 then 10 else 0
  let wrist_diff := |lm.left_wrist.y - lm.right_wrist.y|
  let s2 : ℚ := if wrist_diff < 2/10 then 15
    else if wrist_diff < 4/10 then 10
    else if wrist_diff < 6/10 then 5 else 0
  let elbow_shoulder_relation := (lm.left_elbow.y + lm.right_elbow.y) / 2
    - (lm.left_shoulder.y + lm.right_shoulder.y) / 2
  let s3 : ℚ := if 1/10 < elbow_shoulder_relation ∧ elbow_shoulder_relation < 4/10 then 15
    else if 5/100 < elbow_shoulder_relation ∧ elbow_shoulder_relation < 5/10 then 10 else 0
  let shoulder_center_y := (lm.left_shoulder.y + lm.right_shoulder.y) / 2
  let hip_center_y := (lm.left_hip.y + lm.right_hip.y) / 2
  let forward_lean := hip_center_y - shoulder_center_y
  let s4 : ℚ := if 1/10 < forward_lean ∧ forward_lean < 4/10 then 20
    else if 5/100 < forward_lean ∧ forward_lean < 5/10 then 15
    else if 0 < forward_lean then 10 else 0
  let knee_hip_relation := (lm.left_knee.y + lm.right_knee.y) / 2 - hip_center_y
  let s5 : ℚ := if 15/100 < knee_hip_relation ∧ knee_hip_relation < 35/100 then 10
    else if 1/10 < knee_hip_relation ∧ knee_hip_relation < 4/10 then 7 else 0
  let s6 : ℚ := if 15/100 < lm.nose.y ∧ lm.nose.y < 6/10 then 10
    else if 1/10 < lm.nose.y ∧ lm.nose.y < 7/10 then 7 else 0
  let wrist_center_x := (lm.left_wrist.x + lm.right_wrist.x) / 2
  let body_center_x := (lm.left_shoulder.x + lm.right_shoulder.x) / 2
  let hand_body_distance := |wrist_center_x - body_center_x|
  let s7 : ℚ := if hand_body_distance < 3/10 then 10
    else if hand_body_distance < 5/10 then 7
    else if hand_body_distance < 7/10 then 3 else 0
  let stance_width := |lm.left_knee.x - lm.right_knee.x|
  let shoulder_width := |lm.left_shoulder.x - lm.right_shoulder.x|
  let stance_rel := stance_width / max shoulder_width (1/10)
  let b1 : ℚ := if 8/10 ≤ stance_rel ∧ stance_rel ≤ 15/10 then 5 else 0
  let weight_balance := |lm.left_knee.x - lm.right_knee.x| / 2
  let body_center := |(lm.left_shoulder.x + lm.right_shoulder.x) / 2|
  let b2 : ℚ := if |weight_balance - body_center| < 1/10 then 5 else 0
  let score := s1 + s2 + s3 + s4 + s5 + s6 + s7 + b1 + b2
  let is_other_sport :=
    (lm.left_knee.y < hip_center_y - 15/100 ∨ lm.right_knee.y < hip_center_y - 15/100) ∨
    (wrist_center_x > body_center_x + 5/10 ∧ lm.nose.y < 25/100) ∨
    (|lm.left_shoulder.x - lm.right_shoulder.x| > 35/100) ∨
    (lm.nose.y < 15/100 ∧ hand_body_distance > 6/10) ∨
    (hip_center_y > 7/10)
  if 75 ≤ score ∧ ¬ is_other_sport then true else false

/-- The output dictionary of `analyze_image` restricted to the fields set by
the source: `detected`, the landmark list (set only on the golf branch),
`angles`, `faults`, `score` and the optional `error`. -/
structure OutputG where
  detected : Bool
  landmarks : Option LandmarksG
  angles : Option AnglesG
  faults : List FaultG
  score : ℚ
  error : Option String
deriving DecidableEq, Repr

/-- The initial output dictionary of `analyze_image` (lines 77-83). -/
def output0 : OutputG := ⟨false, none, none, [], 50, none⟩

/-- The mutable analyzer attributes set in `__init__` (lines 22-24):
`self.last_result` and `self.last_image_hash`. -/
structure CacheState where
  last_result : Option OutputG
  last_image_hash : Option ℤ
deriving DecidableEq, Repr

/-- The cache-miss body of `analyze_image` (lines 56-131): run the pose
collaborator; on detection, store the image hash (line 75) — regardless of
the posture verdict — then either fill and cache the full output (golf) or
return the non-golf output without updating `last_result`. -/
def analyze_fresh (process : ℕ → Option LandmarksG) (st : CacheState)
    (img : ℕ) (h : ℤ) : OutputG × CacheState :=
  match process img with
  | none => (output0, st)
  | some lms =>
    let st1 : CacheState := ⟨st.last_result, some h⟩
    if is_golf_posture lms then
      let angles := calculate_golf_angles lms
      let faults := detect_swing_faults angles lms
      let out : OutputG :=
        ⟨true, some lms, some angles, faults, calculate_score angles faults, none⟩
      (out, ⟨some out, some h⟩)
    else
      (⟨false, none, none, [], 0, some "Not a golf posture"⟩, st1)

/-- `analyze_image` (lines 26-165): decode (collaborator; `none` models a
decode failure), the content-hash cache check at lines 51-54 (`hashFn` models
`hash(image.data.tobytes())`), then the fresh analysis.  The state threading
makes the instance attributes explicit. -/
def analyze_image (process : ℕ → Option LandmarksG) (hashFn : ℕ → ℤ)
    (st : CacheState) (img : Option ℕ) : OutputG × CacheState :=
  match img with
  | none => (⟨false, none, none, [], 0, some "Invalid image data"⟩, st)
  | some im =>
    let h := hashFn im
    if st.last_image_hash = some h ∧ st.last_result.isSome then
      (st.last_result.getD output0, st)
    else
      analyze_fresh process st im h

/-- A landmark set passing `is_golf_posture` (a neutral address posture);
used as a concrete pose-collaborator response. -/
def lmGolf : LandmarksG :=
  { nose := ⟨5/10, 3/10⟩
    left_shoulder := ⟨45/100, 3/10⟩
    right_shoulder := ⟨55/100, 3/10⟩
    left_elbow := ⟨46/100, 45/100⟩
    right_elbow := ⟨54/100, 45/100⟩
    left_wrist := ⟨48/100, 55/100⟩
    right_wrist := ⟨52/100, 55/100⟩
    left_hip := ⟨45/100, 55/100⟩
    right_hip := ⟨55/100, 55/100⟩
    left_knee := ⟨45/100, 75/100⟩
    right_knee := ⟨55/100, 75/100⟩ }

/-- A landmark set failing `is_golf_posture` (all coordinates zero scores
well below the 75 threshold); used as a concrete collaborator response. -/
def lmOther : LandmarksG :=
  { nose := ⟨0, 0⟩, left_shoulder := ⟨0, 0⟩, right_shoulder := ⟨0, 0⟩
    left_elbow := ⟨0, 0⟩, right_elbow := ⟨0, 0⟩, left_wrist := ⟨0, 0⟩
    right_wrist := ⟨0, 0⟩, left_hip := ⟨0, 0⟩, right_hip := ⟨0, 0⟩
    left_knee := ⟨0, 0⟩, right_knee := ⟨0, 0⟩ }

/-- A deterministic pose-collaborator stub: image 0 contains the golf
posture, image 1 a detected but non-golf posture. -/
def procStub : ℕ → Option LandmarksG :=
  fun i => if i = 0 then some lmGolf else if i = 1 then some lmOther else none

end GA

section Helpers

theorem best_attempt_cons (a b : Enh.DetectionAttempt) (t : List Enh.DetectionAttempt) :
    Enh.best_attempt a (b :: t) =
      Enh.best_attempt (if a.features.confidence < b.features.confidence then b else a) t :=
  rfl

theorem best_attempt_conf_eq_foldl (t : List Enh.DetectionAttempt) :
    ∀ a : Enh.DetectionAttempt,
      (Enh.best_attempt a t).features.confidence =
        t.foldl (fun m r => max m r.features.confidence) a.features.confidence := by
  induction t with
  | nil => intro a; rfl
  | cons b t ih =>
    intro a
    rw [best_attempt_cons, ih, List.foldl_cons]
    have hseed : (if a.features.confidence < b.features.confidence then b
        else a).features.confidence = max a.features.confidence b.features.confidence := by
      split
    
      case isTrue h => exact (max_eq_right h.le).symm
      case isFalse h => exact (max_eq_left (not_lt.mp h)).symm
    rw [hseed]

theorem foldl_confmax_perm {l₁ l₂ : List Enh.DetectionAttempt} (p : l₁.Perm l₂) :
    ∀ m : ℝ, l₁.foldl (fun m r => max m r.features.confidence) m =
      l₂.foldl (fun m r => max m r.features.confidence) m := by
  induction p with
  | nil => intro m; rfl
  | cons x _ ih => intro m; simp only [List.foldl_cons]; exact ih _
  | swap x y l => intro m; simp only [List.foldl_cons]; rw [sup_right_comm]
  | trans _ _ ih₁ ih₂ => intro m; rw [ih₁, ih₂]

theorem le_foldl_confmax (l : List Enh.DetectionAttempt) :
    ∀ m : ℝ, m ≤ l.foldl (fun m r => max m r.features.confidence) m := by
  induction l with
  | nil => intro m; exact le_refl m
  | cons b t ih =>
    intro m
    simp only [List.foldl_cons]
    exact le_trans (le_max_left _ _) (ih _)

theorem mem_le_foldl_confmax {x : Enh.DetectionAttempt} {l : List Enh.DetectionAttempt}
    (hx : x ∈ l) :
    ∀ m : ℝ, x.features.confidence ≤ l.foldl (fun m r => max m r.features.confidence) m := by
  induction l with
  | nil => cases hx
  | cons b t ih =>
    intro m
    rcases List.mem_cons.mp hx with h | h
    · subst h
      simp only [List.foldl_cons]
      exact le_trans (le_max_right _ _) (le_foldl_confmax t _)
    · simp only [List.foldl_cons]
      exact ih h _

theorem foldl_confmax_max_seed (l : List Enh.DetectionAttempt) :
    ∀ c d : ℝ, l.foldl (fun m r => max m r.features.confidence) (max c d) =
      max (l.foldl (fun m r => max m r.features.confidence) c) d := by
  induction l with
  | nil => intro c d; rfl
  | cons b t ih =>
    intro c d
    simp only [List.foldl_cons]
    rw [sup_right_comm]
    exact ih _ _

theorem best_conf_perm {a b : Enh.DetectionAttempt} {t s : List Enh.DetectionAttempt}
    (p : (a :: t).Perm (b :: s)) :
    (Enh.best_attempt a t).features.confidence =
      (Enh.best_attempt b s).features.confidence := by
  rw [best_attempt_conf_eq_foldl, best_attempt_conf_eq_foldl]
  have hself : ∀ (x : Enh.DetectionAttempt) (l : List Enh.DetectionAttempt),
      l.foldl (fun m r => max m r.features.confidence) x.features.confidence =
        (x :: l).foldl (fun m r => max m r.features.confidence) x.features.confidence := by
    intro x l
    simp only [List.foldl_cons, max_self]
  have hmem : a ∈ b :: s := p.mem_iff.mp (List.mem_cons_self a t)
  have hle : a.features.confidence ≤
      s.foldl (fun m r => max m r.features.confidence) b.features.confidence := by
    rcases List.mem_cons.mp hmem with h | h
    · rw [h]; exact le_foldl_confmax s _
    · exact mem_le_foldl_confmax h _
  calc t.foldl (fun m r => max m r.features.confidence) a.features.confidence
      = (a :: t).foldl (fun m r => max m r.features.confidence) a.features.confidence :=
        hself a t
    _ = (b :: s).foldl (fun m r => max m r.features.confidence) a.features.confidence :=
        foldl_confmax_perm p _
    _ = s.foldl (fun m r => max m r.features.confidence)
          (max b.features.confidence a.features.confidence) := by
        simp only [List.foldl_cons, max_comm]
    _ = max (s.foldl (fun m r => max m r.features.confidence) b.features.confidence)
          a.features.confidence := foldl_confmax_max_seed s _ _
    _ = s.foldl (fun m r => max m r.features.confidence) b.features.confidence :=
        max_eq_left hle

theorem all_perm {l₁ l₂ : List Enh.DetectionAttempt} (p : l₁.Perm l₂)
    (f : Enh.DetectionAttempt → Bool) : l₁.all f = l₂.all f := by
  induction p with
  | nil => rfl
  | cons x _ ih => simp only [List.all_cons, ih]
  | swap x y l => simp only [List.all_cons]; cases f x <;> cases f y <;> simp
  | trans _ _ ih₁ ih₂ => rw [ih₁, ih₂]

end Helpers

/-- C7 (amended): the resolution and sharpness sub-scores of
`assess_image_quality` are each capped at 100 (the source caps them with
`min(100, ...)`, not at 50 as claimed; they reach 50 exactly at the 640x480
baseline and variance 100 respectively and keep growing up to 100). -/
theorem quality_subscores_capped_at_100 :
    ∀ (h w : ℕ) (laplacian_var : ℚ),
      Enh.resolution_score h w ≤ 100 ∧ Enh.sharpness_score laplacian_var ≤ 100 :=
  fun _ _ _ => ⟨min_le_left _ _, min_le_left _ _⟩

/-- C7 (counterexample): a 1280x960 frame has four times the 640x480 baseline
pixel count, so its resolution sub-score is `min(100, 200) = 100`, exceeding
the claimed cap of 50. -/
theorem resolution_score_exceeds_50 :
    Enh.resolution_score 960 1280 = 100 ∧ ¬ Enh.resolution_score 960 1280 ≤ 50 := by
  norm_num [Enh.resolution_score]

/-- C3 (amended): whenever features are present, `calculate_enhanced_score`
returns a value in the configured `[78, 96]` band, for arbitrary (including
extreme or out-of-range) feature values and any quality assessment. -/
theorem enhanced_score_within_bounds :
    ∀ (f : Enh.FeatureVector) (q : Enh.QualityInfo),
      78 ≤ Enh.calculate_enhanced_score (some f) q ∧
        Enh.calculate_enhanced_score (some f) q ≤ 96 := by
  intro f q
  simp only [Enh.calculate_enhanced_score]
  exact ⟨le_max_left _ _, max_le (by norm_num) (min_le_left _ _)⟩

/-- C3 (counterexample): on the missing-features branch the scorer returns
the fixed fallback 65, which lies outside the claimed `[78, 96]` band. -/
theorem enhanced_score_none_is_65 :
    Enh.calculate_enhanced_score none ⟨50, 10, 120, Enh.QualityLevel.medium⟩ = 65 ∧
      ¬ 78 ≤ Enh.calculate_enhanced_score none ⟨50, 10, 120, Enh.QualityLevel.medium⟩ := by
  constructor
  · rfl
  · rw [show Enh.calculate_enhanced_score none ⟨50, 10, 120, Enh.QualityLevel.medium⟩ =
      65 from rfl]
    norm_num

/-- C8: the video-path overall score equals
`0.30·mean(phase scores) + 0.20·tempo + 0.20·consistency +
0.30·biomechanics − 5·|faults|` clamped to `[0, 100]`: the composition of
`comprehensive_analysis` (penalty `5·len(faults)`, outer `min(100, ·)`) with
`calculate_weighted_score` agrees with the specification formula and is
bounded, for every non-empty phase-score table. -/
theorem video_score_matches_weighted_formula :
    ∀ (ps : List ℚ) (tempo consistency biomechanics : ℚ) (faults : List Adv.Fault),
      ps ≠ [] →
      Adv.comprehensive_overall_score ps tempo consistency biomechanics faults =
        Adv.spec_video_score (Adv.npmean ps) tempo consistency biomechanics
          faults.length ∧
      0 ≤ Adv.comprehensive_overall_score ps tempo consistency biomechanics faults ∧
      Adv.comprehensive_overall_score ps tempo consistency biomechanics faults ≤ 100 := by
  intro ps tempo consistency biomechanics faults _
  simp only [Adv.comprehensive_overall_score, Adv.calculate_weighted_score,
    Adv.spec_video_score]
  have harith :
      0 + Adv.npmean ps * (3/10) + tempo * (2/10) + consistency * (2/10)
          + biomechanics * (3/10) - (faults.length : ℚ) * 5 =
        (3/10) * Adv.npmean ps + (2/10) * tempo + (2/10) * consistency
          + (3/10) * biomechanics - 5 * (faults.length : ℚ) := by ring
  rw [harith]
  refine ⟨min_eq_right (max_le (by norm_num) (min_le_left _ _)), ?_, min_le_left _ _⟩
  exact le_min (by norm_num) (le_max_left _ _)

/-- C8 (witness): the bound and the formula agreement evaluated at a concrete
two-phase table. -/
theorem video_score_matches_weighted_formula_witness :
    ([80, 90] : List ℚ) ≠ [] ∧
      (Adv.comprehensive_overall_score [80, 90] 70 75 85 [] =
        Adv.spec_video_score (Adv.npmean [80, 90]) 70 75 85
          ([] : List Adv.Fault).length ∧
      0 ≤ Adv.comprehensive_overall_score [80, 90] 70 75 85 [] ∧
      Adv.comprehensive_overall_score [80, 90] 70 75 85 [] ≤ 100) :=
  ⟨by simp, video_score_matches_weighted_formula [80, 90] 70 75 85 [] (by simp)⟩

/-- C6 (amended): `detect_swing_phase_ml` depends only on the shoulder
rotation value (with its `.get` default 0) and the progress fraction, and on
the progress sequence 0.0, 0.1, ..., 1.0 with constant shoulder rotation 80
it yields address, top, top, top, top, transition, impact, follow_through,
finish, finish, finish — the sequence dictated by the transition table (a
rotation of 80 fails the `rotation < 30` takeaway guard, and the claimed
sequence disagrees with the table from progress 0.1 onwards). -/
theorem phase_classifier_pure_and_sequence :
    (∀ (a₁ a₂ : Adv.AdvAngles) (frame_num total_frames : ℕ),
        a₁.shoulder_rotation.getD 0 = a₂.shoulder_rotation.getD 0 →
        Adv.detect_swing_phase_ml a₁ frame_num total_frames =
          Adv.detect_swing_phase_ml a₂ frame_num total_frames) ∧
    ([0, 1, 2, 3, 4, 5, 6, 7, 8, 9, 10].map
        (fun i => Adv.detect_swing_phase_ml ⟨some 80, none, none, none, none⟩ i 10) =
      [.address, .top, .top, .top, .top, .transition, .impact, .follow_through,
        .finish, .finish, .finish]) := by
  constructor
  · intro a₁ a₂ frame_num total_frames hsh
    simp only [Adv.detect_swing_phase_ml, hsh]
  · norm_num [Adv.detect_swing_phase_ml]

/-- C6 (witness): the purity statement applied to two concrete angle
dictionaries differing in every key except `shoulder_rotation`. -/
theorem phase_classifier_pure_witness :
    (⟨some 80, none, none, none, none⟩ : Adv.AdvAngles).shoulder_rotation.getD 0 =
      (⟨some 80, some 1, some 2, some 3, some 4⟩ : Adv.AdvAngles).shoulder_rotation.getD 0 ∧
    Adv.detect_swing_phase_ml ⟨some 80, none, none, none, none⟩ 3 10 =
      Adv.detect_swing_phase_ml ⟨some 80, some 1, some 2, some 3, some 4⟩ 3 10 :=
  ⟨rfl, phase_classifier_pure_and_sequence.1 _ _ 3 10 rfl⟩

/-- C6 (counterexample): the sequence claimed by the specification test
vector (address, takeaway, top, top, top, top, downswing, impact,
follow_through, finish, finish) is not what the classifier produces for
constant rotation 80: already at progress 0.1 the takeaway guard
`rotation < 30` fails and the classifier returns `top`. -/
theorem phase_sequence_claim_false :
    ¬ ([0, 1, 2, 3, 4, 5, 6, 7, 8, 9, 10].map
        (fun i => Adv.detect_swing_phase_ml ⟨some 80, none, none, none, none⟩ i 10) =
      [.address, .takeaway, .top, .top, .top, .top, .downswing, .impact,
        .follow_through, .finish, .finish]) := by
  norm_num [Adv.detect_swing_phase_ml]
  decide

/-- C5: the fault list of `detect_advanced_faults` depends on the
`np.random.uniform(0, 0.15)` draw made by `check_lateral_movement`: on the
same two-frame timeline (address then backswing, no other fault firing) a
draw of 0.12 produces a sway fault while a draw of 0.05 produces none, so
two runs of the pipeline on identical input can emit different JSON. -/
theorem sway_fault_depends_on_random_draw :
    Adv.detect_advanced_faults
        [⟨some 80, none, none, some 30, some 90⟩, ⟨some 60, none, none, some 30, some 90⟩]
        [.address, .backswing] (12/100) ≠
      Adv.detect_advanced_faults
        [⟨some 80, none, none, some 30, some 90⟩, ⟨some 60, none, none, some 30, some 90⟩]
        [.address, .backswing] (5/100) := by
  norm_num [Adv.detect_advanced_faults, Adv.phase_angles, Adv.check_lateral_movement]
  decide

/-- C1 (amended): every `FeatureVector` built by `extract_golf_features`
satisfies `x_factor = abs(shoulder_rotation - hip_rotation)` exactly; the
fused vector of `confidence_weighted_voting` instead carries the
confidence-weighted mean of the attempts' x_factor values, which can differ
from the absolute difference of the fused rotations. -/
theorem extract_features_x_factor_abs :
    ∀ lm : Enh.LandmarkSet,
      (Enh.extract_golf_features lm).x_factor =
        |(Enh.extract_golf_features lm).shoulder_rotation -
          (Enh.extract_golf_features lm).hip_rotation| :=
  fun _ => rfl

/-- C1 (counterexample): two attempts with rotations (10, 0) and (0, 10) and
equal confidence 1/2 each satisfy the invariant individually (x_factor 10),
but the fused vector has shoulder and hip rotation both 5 while its
x_factor is the weighted mean 10, and `abs(5 - 5) = 0 ≠ 10`. -/
theorem fused_x_factor_not_abs_of_fused_rotations :
    ((Enh.confidence_weighted_voting
        [⟨⟨10, 0, 10, 25, some 25, 1/2⟩, 1/10, 1, 1⟩,
          ⟨⟨0, 10, 10, 25, some 30, 1/2⟩, 15/100, 2, 8/10⟩]).map
      (fun c => (c.features.x_factor,
        |c.features.shoulder_rotation - c.features.hip_rotation|))) =
      some (10, 0) ∧ (10 : ℝ) ≠ 0 := by
  constructor
  · norm_num [Enh.confidence_weighted_voting, Enh.total_weight, Enh.weighted_angle]
  · norm_num

/-- C10 (amended): `calculate_angle_3points` is total and whenever both
direction vectors are nonzero the clip to `[-1, 1]` makes `acos`
well-defined, with the returned angle in `[0, 180]` degrees; the degenerate
zero-length case however yields NaN (modelled `none`), not the documented
default 90, because the NaN from `0/0` propagates through `np.clip` and
`math.acos` without raising, so the `except`-branch default is unreachable. -/
theorem angle_3points_bounded_when_vectors_nonzero :
    ∀ p1 p2 p3 : Enh.Pt,
      ¬(p1.x - p2.x = 0 ∧ p1.y - p2.y = 0) →
      ¬(p3.x - p2.x = 0 ∧ p3.y - p2.y = 0) →
      ∃ θ, Enh.calculate_angle_3points p1 p2 p3 = some θ ∧ 0 ≤ θ ∧ θ ≤ 180 := by
  intro p1 p2 p3 h1 h2
  have hn : ∀ a b : ℝ, ¬(a = 0 ∧ b = 0) → Real.sqrt (a ^ 2 + b ^ 2) ≠ 0 := by
    intro a b hab
    rw [Ne, Real.sqrt_eq_zero (by positivity)]
    intro hz
    exact hab ⟨by nlinarith [sq_nonneg a, sq_nonneg b],
      by nlinarith [sq_nonneg a, sq_nonneg b]⟩
  have n1 : Enh.norm2 (Enh.vsub p1 p2) ≠ 0 := hn _ _ h1
  have n2 : Enh.norm2 (Enh.vsub p3 p2) ≠ 0 := hn _ _ h2
  have hden : Enh.norm2 (Enh.vsub p1 p2) * Enh.norm2 (Enh.vsub p3 p2) ≠ 0 :=
    mul_ne_zero n1 n2
  refine ⟨Enh.degrees (Real.arccos (Enh.clip
    (Enh.dot2 (Enh.vsub p1 p2) (Enh.vsub p3 p2) /
      (Enh.norm2 (Enh.vsub p1 p2) * Enh.norm2 (Enh.vsub p3 p2))) (-1) 1)), ?_, ?_, ?_⟩
  · simp only [Enh.calculate_angle_3points]
    rw [if_neg hden]
  · have := Real.arccos_nonneg (Enh.clip
      (Enh.dot2 (Enh.vsub p1 p2) (Enh.vsub p3 p2) /
        (Enh.norm2 (Enh.vsub p1 p2) * Enh.norm2 (Enh.vsub p3 p2))) (-1) 1)
    simp only [Enh.degrees]
    positivity
  · have harc := Real.arccos_le_pi (Enh.clip
      (Enh.dot2 (Enh.vsub p1 p2) (Enh.vsub p3 p2) /
        (Enh.norm2 (Enh.vsub p1 p2) * Enh.norm2 (Enh.vsub p3 p2))) (-1) 1)
    simp only [Enh.degrees]
    rw [div_le_iff₀ Real.pi_pos]
    nlinarith [Real.pi_pos]

/-- C10 (witness): the bound applied to the right-angle triple
(1,0), (0,0), (0,1), whose direction vectors are both nonzero. -/
theorem angle_3points_bounded_witness :
    ¬((1 : ℝ) - 0 = 0 ∧ (0 : ℝ) - 0 = 0) ∧
    ¬((0 : ℝ) - 0 = 0 ∧ (1 : ℝ) - 0 = 0) ∧
    ∃ θ, Enh.calculate_angle_3points ⟨1, 0⟩ ⟨0, 0⟩ ⟨0, 1⟩ = some θ ∧ 0 ≤ θ ∧ θ ≤ 180 :=
  ⟨by norm_num, by norm_num,
    angle_3points_bounded_when_vectors_nonzero ⟨1, 0⟩ ⟨0, 0⟩ ⟨0, 1⟩
      (by norm_num) (by norm_num)⟩

/-- C10 (counterexample): with all three points coincident both vectors are
zero-length, the denominator is zero, and the result is NaN (`none`) rather
than the claimed default 90. -/
theorem angle_3points_nan_on_degenerate :
    Enh.calculate_angle_3points ⟨0, 0⟩ ⟨0, 0⟩ ⟨0, 0⟩ = none ∧
      Enh.calculate_angle_3points ⟨0, 0⟩ ⟨0, 0⟩ ⟨0, 0⟩ ≠ some 90 := by
  have h : Enh.calculate_angle_3points ⟨0, 0⟩ ⟨0, 0⟩ ⟨0, 0⟩ = none := by
    norm_num [Enh.calculate_angle_3points, Enh.vsub, Enh.norm2]
  exact ⟨h, by rw [h]; exact fun hc => Option.noConfusion hc⟩

/-- C4: the analysis boundary is total in the model and every failure path
yields a structured result: each branch of `analyze_enhanced` either reports
success or carries an error string, and in particular when every ensemble
attempt failed (empty attempt pool) the result has `success = false`, an
error reason, and still carries the quality assessment. -/
theorem analyze_enhanced_total_and_structured :
    (∀ (decoded : Option Enh.Img) (attempts : List Enh.DetectionAttempt),
        (Enh.analyze_enhanced decoded attempts).success = true ∨
          (Enh.analyze_enhanced decoded attempts).error.isSome = true) ∧
    (∀ img : Enh.Img,
        (Enh.analyze_enhanced (some img) []).success = false ∧
          (Enh.analyze_enhanced (some img) []).error.isSome = true ∧
          (Enh.analyze_enhanced (some img) []).quality_info.isSome = true) := by
  constructor
  · intro decoded attempts
    rcases decoded with _ | img
    · simp [Enh.analyze_enhanced]
    · simp only [Enh.analyze_enhanced]
      split
      · simp
      · split
        · simp
        · split
          · simp
          · simp
  · intro img
    simp [Enh.analyze_enhanced]

/-- C2 (amended): under any permutation of the attempt list with nonzero
total weight, `confidence_weighted_voting` produces the same fused
`FeatureVector` (all weighted angles, the NaN-aware knee mean, and the
maximal confidence) and the same `num_results`/`total_weight` metadata; the
`scales_used`/`stages_used` lists and the tie-broken base identity follow the
input order and are not order-independent. -/
theorem voting_fused_features_perm_invariant :
    ∀ rs₁ rs₂ : List Enh.DetectionAttempt, rs₁.Perm rs₂ → Enh.total_weight rs₁ ≠ 0 →
      ((Enh.confidence_weighted_voting rs₁).map fun c => c.features) =
        ((Enh.confidence_weighted_voting rs₂).map fun c => c.features) ∧
      ((Enh.confidence_weighted_voting rs₁).map fun c =>
          c.voting_info.map fun v => (v.num_results, v.total_weight)) =
        ((Enh.confidence_weighted_voting rs₂).map fun c =>
          c.voting_info.map fun v => (v.num_results, v.total_weight)) := by
  intro rs₁ rs₂ p hw
  have htw : Enh.total_weight rs₁ = Enh.total_weight rs₂ := by
    unfold Enh.total_weight
    exact (p.map fun r => r.features.confidence).sum_eq
  have hw₂ : Enh.total_weight rs₂ ≠ 0 := fun h => hw (htw.trans h)
  have hwa : ∀ f : Enh.FeatureVector → ℝ,
      Enh.weighted_angle rs₁ f = Enh.weighted_angle rs₂ f := by
    intro f
    unfold Enh.weighted_angle
    rw [(p.map fun r => f r.features * r.features.confidence).sum_eq, htw]
  have hknee : Enh.weighted_knee rs₁ = Enh.weighted_knee rs₂ := by
    unfold Enh.weighted_knee
    rw [all_perm p, (p.map fun r => r.features.knee_flex.getD 0 * r.features.confidence).sum_eq,
      htw]
  rcases rs₁ with _ | ⟨a, t⟩
  · exact absurd rfl hw
  rcases rs₂ with _ | ⟨b, s⟩
  · have := p.length_eq
    simp at this
  have hbc := best_conf_perm p
  simp only [Enh.confidence_weighted_voting]
  rw [if_neg hw, if_neg hw₂]
  constructor
  · simp only [Option.map_some']
    rw [hwa fun f => f.shoulder_rotation, hwa fun f => f.hip_rotation,
      hwa fun f => f.x_factor, hwa fun f => f.spine_angle, hknee, hbc]
  · simp only [Option.map_some']
    rw [p.length_eq, htw]

/-- C2 (witness): the fused-feature invariance applied to the swap of a
concrete two-attempt list with total weight 5/4. -/
theorem voting_fused_features_perm_invariant_witness :
    ([⟨⟨100, 40, 60, 25, some 25, 1/2⟩, 1/10, 1, 8/10⟩,
        ⟨⟨80, 30, 50, 20, some 30, 3/4⟩, 15/100, 2, 1⟩] :
      List Enh.DetectionAttempt).Perm
      [⟨⟨80, 30, 50, 20, some 30, 3/4⟩, 15/100, 2, 1⟩,
        ⟨⟨100, 40, 60, 25, some 25, 1/2⟩, 1/10, 1, 8/10⟩] ∧
    Enh.total_weight
      [⟨⟨100, 40, 60, 25, some 25, 1/2⟩, 1/10, 1, 8/10⟩,
        ⟨⟨80, 30, 50, 20, some 30, 3/4⟩, 15/100, 2, 1⟩] ≠ 0 ∧
    (((Enh.confidence_weighted_voting
        [⟨⟨100, 40, 60, 25, some 25, 1/2⟩, 1/10, 1, 8/10⟩,
          ⟨⟨80, 30, 50, 20, some 30, 3/4⟩, 15/100, 2, 1⟩]).map fun c => c.features) =
      ((Enh.confidence_weighted_voting
        [⟨⟨80, 30, 50, 20, some 30, 3/4⟩, 15/100, 2, 1⟩,
          ⟨⟨100, 40, 60, 25, some 25, 1/2⟩, 1/10, 1, 8/10⟩]).map fun c => c.features) ∧
    ((Enh.confidence_weighted_voting
        [⟨⟨100, 40, 60, 25, some 25, 1/2⟩, 1/10, 1, 8/10⟩,
          ⟨⟨80, 30, 50, 20, some 30, 3/4⟩, 15/100, 2, 1⟩]).map fun c =>
        c.voting_info.map fun v => (v.num_results, v.total_weight)) =
      ((Enh.confidence_weighted_voting
        [⟨⟨80, 30, 50, 20, some 30, 3/4⟩, 15/100, 2, 1⟩,
          ⟨⟨100, 40, 60, 25, some 25, 1/2⟩, 1/10, 1, 8/10⟩]).map fun c =>
        c.voting_info.map fun v => (v.num_results, v.total_weight))) :=
  ⟨List.Perm.swap _ _ _, by norm_num [Enh.total_weight],
    voting_fused_features_perm_invariant _ _ (List.Perm.swap _ _ _)
      (by norm_num [Enh.total_weight])⟩

/-- C2 (counterexample): swapping the two attempts changes the
`scales_used` metadata list inside the returned `ConsensusResult` from
[0.8, 1] to [1, 0.8], so the consensus is not identical under permutation. -/
theorem voting_metadata_depends_on_order :
    ((Enh.confidence_weighted_voting
        [⟨⟨100, 40, 60, 25, some 25, 1/2⟩, 1/10, 1, 8/10⟩,
          ⟨⟨80, 30, 50, 20, some 30, 3/4⟩, 15/100, 2, 1⟩]).map fun c =>
        c.voting_info.map fun v => v.scales_used) ≠
      ((Enh.confidence_weighted_voting
        [⟨⟨80, 30, 50, 20, some 30, 3/4⟩, 15/100, 2, 1⟩,
          ⟨⟨100, 40, 60, 25, some 25, 1/2⟩, 1/10, 1, 8/10⟩]).map fun c =>
        c.voting_info.map fun v => v.scales_used) := by
  norm_num [Enh.confidence_weighted_voting, Enh.total_weight]

theorem is_golf_posture_lmGolf : GA.is_golf_posture GA.lmGolf = true := by
  norm_num [GA.is_golf_posture, GA.lmGolf, sup_eq_max, max_def, abs_of_nonneg, abs_of_nonpos]

theorem is_golf_posture_lmOther : GA.is_golf_posture GA.lmOther = false := by
  norm_num [GA.is_golf_posture, GA.lmOther, sup_eq_max, max_def, abs_of_nonneg, abs_of_nonpos]

/-- C9: the fast analyzer is not stateless across invocations.  With a
deterministic pose collaborator (image 0 is a golf posture, image 1 a
detected non-golf posture) the call sequence image 0, image 1, image 1 on
one analyzer instance returns `detected = true` for the third call — the
stale cached result of image 0 — while a fresh analysis of image 1 returns
`detected = false`: line 75 stores the new image hash on any detection
without updating `last_result`, so the cache check at lines 51-54 later
pairs image 1's hash with image 0's result. -/
theorem analyze_image_returns_stale_cached_result :
    (GA.analyze_image GA.procStub (fun n => (n : ℤ))
        ((GA.analyze_image GA.procStub (fun n => (n : ℤ))
            ((GA.analyze_image GA.procStub (fun n => (n : ℤ))
                ⟨none, none⟩ (some 0)).2)
            (some 1)).2)
        (some 1)).1.detected = true ∧
    (GA.analyze_image GA.procStub (fun n => (n : ℤ)) ⟨none, none⟩ (some 1)).1.detected
      = false := by
  constructor
  · norm_num [GA.analyze_image, GA.analyze_fresh, GA.procStub,
      is_golf_posture_lmGolf, is_golf_posture_lmOther]
  · norm_num [GA.analyze_image, GA.analyze_fresh, GA.procStub,
      is_golf_posture_lmOther]
